import Mathlib

/-!
Verification of the amortization engine in src/mortgage-calculator.py.

The source performs currency arithmetic with Python floats and rounds with
Python's built-in `round(x, 2)` (round half to even on the value).  Following
the spec's own data model (currency values with exact 2-decimal rounding,
spec section 9 notes that the arithmetic is ideally decimal/fixed-point), the
embedding models currency as exact rationals and `round(x, 2)` as decimal
round-half-to-even; every concrete value checked below is far from any
rounding tie, so the checked values coincide with the float computation.
-/

/-- Source constant `ANNUAL_RATE = 0.0649`. -/
def ANNUAL_RATE : ℚ := 0.0649

/-- Source constant `MONTHLY_RATE = ANNUAL_RATE / 12`. -/
def MONTHLY_RATE : ℚ := ANNUAL_RATE / 12

/-- Source constant `MONTHLY_PAYMENT = 1294.39`. -/
def MONTHLY_PAYMENT : ℚ := 1294.39

/-- Round a rational to the nearest integer, ties to the even integer:
the rounding used by Python's built-in `round`. -/
def round_half_even (q : ℚ) : ℤ :=
  if q - ⌊q⌋ < 1/2 then ⌊q⌋
  else if 1/2 < q - ⌊q⌋ then ⌊q⌋ + 1
  else if 2 ∣ ⌊q⌋ then ⌊q⌋ else ⌊q⌋ + 1

/-- Python's `round(q, 2)`: round to 2 decimal places. -/
def round2 (q : ℚ) : ℚ := (round_half_even (q * 100) : ℚ) / 100

/-- The dict returned by `calculate_month` (with the `month` key that
`project_months` adds afterwards; `calculate_month` itself leaves it 0). -/
structure MonthResult where
  starting_balance : ℚ
  extra_payment : ℚ
  balance_for_interest : ℚ
  interest : ℚ
  principal : ℚ
  total_paid : ℚ
  new_balance : ℚ
  month : ℕ
  deriving DecidableEq, Inhabited, Repr

/-- `calculate_month(balance, extra_payment)` from the source:
balance_for_interest = balance - extra_payment, interest accrues on it at
MONTHLY_RATE, principal = MONTHLY_PAYMENT - interest, and the interest,
principal, total_paid and new_balance entries are rounded to 2 decimals. -/
def calculate_month (balance : ℚ) (extra_payment : ℚ) : MonthResult :=
  let balance_for_interest := balance - extra_payment
  let interest := balance_for_interest * MONTHLY_RATE
  let principal := MONTHLY_PAYMENT - interest
  let new_balance := balance - extra_payment - principal
  { starting_balance := balance
    extra_payment := extra_payment
    balance_for_interest := balance_for_interest
    interest := round2 interest
    principal := round2 principal
    total_paid := round2 (extra_payment + MONTHLY_PAYMENT)
    new_balance := round2 new_balance
    month := 0 }

/-- The clamp at the top of the loop body of `project_months`:
`extra = min(monthly_extra, balance - MONTHLY_PAYMENT * 0.1)`, then
`if extra < 0: extra = 0`. -/
def clamped_extra (monthly_extra balance : ℚ) : ℚ :=
  let extra0 := min monthly_extra (balance - MONTHLY_PAYMENT * 0.1)
  if extra0 < 0 then 0 else extra0

/-- The statement `result["month"] = month` of the loop body. -/
def tag_month (r : MonthResult) (m : ℕ) : MonthResult := { r with month := m }

/-- The loop body of `project_months`: `fuel` is the number of remaining
iterations of `for month in range(1, num_months + 1)`, `balance` the current
balance and `month` the 1-based month index.  Each iteration clamps the
extra payment, appends the month's result tagged with its index, then
advances the balance and stops early once it is ≤ 0. -/
def project_go (monthly_extra : ℚ) : ℕ → ℚ → ℕ → List MonthResult
  | 0, _, _ => []
  | fuel + 1, balance, month =>
    let result := tag_month (calculate_month balance (clamped_extra monthly_extra balance)) month
    if result.new_balance ≤ 0 then [result]
    else result :: project_go monthly_extra fuel result.new_balance (month + 1)

/-- `project_months(starting_balance, monthly_extra, num_months)` from the
source.  `num_months` is a Python int, possibly negative; the loop runs
`max num_months 0` times unless the balance reaches 0 first. -/
def project_months (starting_balance monthly_extra : ℚ) (num_months : ℤ) :
    List MonthResult :=
  project_go monthly_extra num_months.toNat starting_balance 1

set_option maxRecDepth 4000

/-- Projections of `tag_month`: only the month index changes. -/
lemma tag_month_fields (r : MonthResult) (m : ℕ) :
    (tag_month r m).starting_balance = r.starting_balance ∧
    (tag_month r m).extra_payment = r.extra_payment ∧
    (tag_month r m).balance_for_interest = r.balance_for_interest ∧
    (tag_month r m).new_balance = r.new_balance :=
  ⟨rfl, rfl, rfl, rfl⟩

/-- The clamp of the loop body (min, then floor negative values to 0)
computes a max with 0. -/
lemma clamped_extra_eq_max (monthly_extra balance : ℚ) :
    clamped_extra monthly_extra balance =
      max 0 (min monthly_extra (balance - MONTHLY_PAYMENT * 0.1)) := by
  rw [clamped_extra]
  rcases lt_or_le (min monthly_extra (balance - MONTHLY_PAYMENT * 0.1)) 0 with h | h
  · rw [if_pos h, max_eq_left h.le]
  · rw [if_neg (not_lt.mpr h), max_eq_right h]

/-- Every entry of the projection loop records the clamped extra payment for
its own starting balance, and its interest-bearing balance is its starting
balance minus that extra payment. -/
lemma project_go_mem (monthly_extra : ℚ) :
    ∀ (fuel : ℕ) (balance : ℚ) (month : ℕ) (r : MonthResult),
      r ∈ project_go monthly_extra fuel balance month →
      r.extra_payment =
        max 0 (min monthly_extra (r.starting_balance - MONTHLY_PAYMENT * 0.1)) ∧
      r.balance_for_interest = r.starting_balance - r.extra_payment := by
  intro fuel
  induction fuel with
  | zero =>
    intro balance month r hr
    simp [project_go] at hr
  | succ f ih =>
    intro balance month r hr
    simp only [project_go] at hr
    split at hr
    · rw [List.mem_singleton] at hr
      subst hr
      constructor <;>
        simp [tag_month, calculate_month, clamped_extra_eq_max]
    · rcases List.mem_cons.mp hr with h | h
      · subst h
        constructor <;>
          simp [tag_month, calculate_month, clamped_extra_eq_max]
      · exact ih _ _ _ h

/-- The projection loop produces at most as many entries as it has remaining
iterations. -/
lemma project_go_length (monthly_extra : ℚ) :
    ∀ (fuel : ℕ) (balance : ℚ) (month : ℕ),
      (project_go monthly_extra fuel balance month).length ≤ fuel := by
  intro fuel
  induction fuel with
  | zero => intro balance month; simp [project_go]
  | succ f ih =>
    intro balance month
    simp only [project_go]
    split
    · simp
    · simp only [List.length_cons]
      exact Nat.succ_le_succ (ih _ _)

/-- With at least one iteration left, the first entry the projection loop
produces starts from the balance the loop was entered with. -/
lemma project_go_head (monthly_extra balance : ℚ) (f month : ℕ) :
    ((project_go monthly_extra (f + 1) balance month).getD 0 default).starting_balance =
      balance := by
  simp only [project_go]
  split <;> simp [tag_month, calculate_month]

/-- If an entry produced by the projection loop has a non-positive new
balance, it is the last entry. -/
lemma project_go_neg_last (monthly_extra : ℚ) :
    ∀ (fuel : ℕ) (balance : ℚ) (month : ℕ) (i : ℕ),
      i < (project_go monthly_extra fuel balance month).length →
      ((project_go monthly_extra fuel balance month).getD i default).new_balance ≤ 0 →
      i + 1 = (project_go monthly_extra fuel balance month).length := by
  intro fuel
  induction fuel with
  | zero =>
    intro balance month i hi hneg
    simp [project_go] at hi
  | succ f ih =>
    intro balance month i hi hneg
    simp only [project_go] at hi hneg ⊢
    split at hi
    · rename_i hc
      rw [if_pos hc] at hneg ⊢
      simp only [List.length_singleton] at hi ⊢
      omega
    · rename_i hc
      rw [if_neg hc] at hneg ⊢
      rcases i with _ | j
      · exact absurd (by simpa using hneg) hc
      · have hj := ih _ _ j (by simpa using hi) (by simpa using hneg)
        simp only [List.length_cons]
        omega

/-- Consecutive entries of the projection loop chain: each entry after the
first starts from the previous entry's new balance. -/
lemma project_go_chain (monthly_extra : ℚ) :
    ∀ (fuel : ℕ) (balance : ℚ) (month : ℕ) (i : ℕ),
      i + 1 < (project_go monthly_extra fuel balance month).length →
      ((project_go monthly_extra fuel balance month).getD (i + 1) default).starting_balance =
        ((project_go monthly_extra fuel balance month).getD i default).new_balance := by
  intro fuel
  induction fuel with
  | zero =>
    intro balance month i hi
    simp [project_go] at hi
  | succ f ih =>
    intro balance month i hi
    simp only [project_go] at hi ⊢
    split at hi
    · rename_i hc
      simp only [List.length_singleton] at hi
      exact absurd hi (by omega)
    · rename_i hc
      rw [if_neg hc]
      rcases i with _ | j
      · simp only [List.getD_cons_succ, List.getD_cons_zero]
        rcases f with _ | f'
        · exact absurd hi (by simp [project_go])
        · exact project_go_head monthly_extra _ f' _
      · simp only [List.getD_cons_succ]
        exact ih _ _ j (by simpa using hi)

/-- Claim C1 (counterexample): at balance 95347.03 and extra payment 6042 the
source does not return interest 483.14, principal 811.25, new balance
88493.78; interest is 89305.03 * 0.0649 / 12 = 482.99 once rounded, so the
quoted triple of currency values is wrong. -/
theorem c1_counterexample :
    ¬ ((calculate_month 95347.03 6042).balance_for_interest = 89305.03 ∧
       (calculate_month 95347.03 6042).interest = 483.14 ∧
       (calculate_month 95347.03 6042).principal = 811.25 ∧
       (calculate_month 95347.03 6042).new_balance = 88493.78) := by
  norm_num [calculate_month, round2, round_half_even, MONTHLY_RATE, ANNUAL_RATE,
    MONTHLY_PAYMENT]

/-- Claim C1 (amended): computeMonth applied to balance 95347.03 and extra
payment 6042 (annual rate 0.0649, monthly payment 1294.39) returns
balance_for_interest 89305.03, interest 482.99, principal 811.40 and
new_balance 88493.63. -/
theorem c1_single_month_values :
    (calculate_month 95347.03 6042).balance_for_interest = 89305.03 ∧
    (calculate_month 95347.03 6042).interest = 482.99 ∧
    (calculate_month 95347.03 6042).principal = 811.40 ∧
    (calculate_month 95347.03 6042).new_balance = 88493.63 := by
  norm_num [calculate_month, round2, round_half_even, MONTHLY_RATE, ANNUAL_RATE,
    MONTHLY_PAYMENT]

/-- Claim C2 (counterexample): on balance 100000.004 with extra payment 0 the
new_balance field (99246.45, rounded from the unrounded principal) differs
from round(starting_balance - extra_payment - principal, 2) computed from the
rounded principal field (99246.44), so the claimed invariant over rounded
field values fails. -/
theorem c2_counterexample :
    (calculate_month 100000.004 0).new_balance ≠
      round2 ((calculate_month 100000.004 0).starting_balance -
        (calculate_month 100000.004 0).extra_payment -
        (calculate_month 100000.004 0).principal) := by
  norm_num [calculate_month, round2, round_half_even, MONTHLY_RATE, ANNUAL_RATE,
    MONTHLY_PAYMENT]

/-- Claim C2 (amended): computeMonth rounds the interest, principal,
total_paid and new_balance fields to 2 decimal places at the point of
computation; the starting_balance, extra_payment and balance_for_interest
fields are returned unrounded, and the rounded fields are computed from the
unrounded intermediate values: principal = round(monthlyPayment - interest_u, 2)
and new_balance = round(startingBalance - extraPayment - principal_u, 2) where
interest_u and principal_u are the values before rounding. -/
theorem c2_field_rounding (balance extra_payment : ℚ) :
    (calculate_month balance extra_payment).starting_balance = balance ∧
    (calculate_month balance extra_payment).extra_payment = extra_payment ∧
    (calculate_month balance extra_payment).balance_for_interest =
      balance - extra_payment ∧
    (calculate_month balance extra_payment).interest =
      round2 ((balance - extra_payment) * MONTHLY_RATE) ∧
    (calculate_month balance extra_payment).principal =
      round2 (MONTHLY_PAYMENT - (balance - extra_payment) * MONTHLY_RATE) ∧
    (calculate_month balance extra_payment).total_paid =
      round2 (extra_payment + MONTHLY_PAYMENT) ∧
    (calculate_month balance extra_payment).new_balance =
      round2 (balance - extra_payment -
        (MONTHLY_PAYMENT - (balance - extra_payment) * MONTHLY_RATE)) :=
  ⟨rfl, rfl, rfl, rfl, rfl, rfl, rfl⟩

/-- Claim C3: every month of a projection applies exactly the clamped extra
payment max(0, min(monthlyExtra, b - monthlyPayment * 0.1)) where b is that
month's own starting balance. -/
theorem c3_monthly_clamp (b mE : ℚ) (n : ℤ) (r : MonthResult)
    (hr : r ∈ project_months b mE n) :
    r.extra_payment =
      max 0 (min mE (r.starting_balance - MONTHLY_PAYMENT * 0.1)) :=
  (project_go_mem mE n.toNat b 1 r hr).1

/-- Witness for C3 at the one-month projection of balance 1000 with monthly
extra 100. -/
theorem c3_witness :
    ({ calculate_month 1000 100 with month := 1 } : MonthResult) ∈
      project_months 1000 100 1 ∧
    ({ calculate_month 1000 100 with month := 1 } : MonthResult).extra_payment =
      max 0 (min 100
        (({ calculate_month 1000 100 with month := 1 } : MonthResult).starting_balance -
          MONTHLY_PAYMENT * 0.1)) :=
  ⟨by norm_num [project_months, project_go, tag_month, clamped_extra, calculate_month,
      round2, round_half_even, MONTHLY_RATE, ANNUAL_RATE, MONTHLY_PAYMENT],
   c3_monthly_clamp 1000 100 1 { calculate_month 1000 100 with month := 1 }
     (by norm_num [project_months, project_go, tag_month, clamped_extra, calculate_month,
       round2, round_half_even, MONTHLY_RATE, ANNUAL_RATE, MONTHLY_PAYMENT])⟩

/-- Claim C4: a projection never has more than numMonths entries, and any
entry with new_balance ≤ 0 is the last entry. -/
theorem c4_termination_invariant (b mE : ℚ) (n : ℤ) :
    (project_months b mE n).length ≤ n.toNat ∧
    ∀ i : ℕ, i < (project_months b mE n).length →
      ((project_months b mE n).getD i default).new_balance ≤ 0 →
      i + 1 = (project_months b mE n).length :=
  ⟨project_go_length mE n.toNat b 1,
   fun i hi hneg => project_go_neg_last mE n.toNat b 1 i hi hneg⟩

/-- Witness for C4: projecting balance 100 with monthly extra 100 for 5
months pays off in month 1, which is the last of the single produced entry. -/
theorem c4_witness :
    (project_months 100 100 5).length ≤ (5 : ℤ).toNat ∧
    0 + 1 = (project_months 100 100 5).length :=
  ⟨(c4_termination_invariant 100 100 5).1,
   (c4_termination_invariant 100 100 5).2 0
     (by norm_num [project_months, project_go, tag_month, clamped_extra, calculate_month,
       round2, round_half_even, MONTHLY_RATE, ANNUAL_RATE, MONTHLY_PAYMENT])
     (by norm_num [project_months, project_go, tag_month, clamped_extra, calculate_month,
       round2, round_half_even, MONTHLY_RATE, ANNUAL_RATE, MONTHLY_PAYMENT])⟩

/-- Claim C5: in every projection, the starting balance of each month after
the first equals the new balance of the month before it. -/
theorem c5_chaining (b mE : ℚ) (n : ℤ) (i : ℕ)
    (h : i + 1 < (project_months b mE n).length) :
    ((project_months b mE n).getD (i + 1) default).starting_balance =
      ((project_months b mE n).getD i default).new_balance :=
  project_go_chain mE n.toNat b 1 i h

/-- Witness for C5 at the two-month projection of balance 200000 with no
extra payment. -/
theorem c5_witness :
    0 + 1 < (project_months 200000 0 2).length ∧
    ((project_months 200000 0 2).getD (0 + 1) default).starting_balance =
      ((project_months 200000 0 2).getD 0 default).new_balance :=
  ⟨by norm_num [project_months, project_go, tag_month, clamped_extra, calculate_month,
      round2, round_half_even, MONTHLY_RATE, ANNUAL_RATE, MONTHLY_PAYMENT],
   c5_chaining 200000 0 2 0
     (by norm_num [project_months, project_go, tag_month, clamped_extra, calculate_month,
       round2, round_half_even, MONTHLY_RATE, ANNUAL_RATE, MONTHLY_PAYMENT])⟩

/-- Claim C6 (counterexample): with monthlyExtra = -1 the single projected
month floors the extra payment to 0, and 0 is not ≤ -1, so the bound
extraPayment ≤ monthlyExtra fails for negative monthlyExtra. -/
theorem c6_counterexample :
    0 < (project_months 1000 (-1) 1).length ∧
    ¬ (((project_months 1000 (-1) 1).getD 0 default).extra_payment ≤ -1) := by
  norm_num [project_months, project_go, tag_month, clamped_extra, calculate_month,
    round2, round_half_even, MONTHLY_RATE, ANNUAL_RATE, MONTHLY_PAYMENT]

/-- Claim C6 (amended): every projection month has extraPayment ≥ 0, and
whenever monthlyExtra ≥ 0 (the clamp floor makes negative monthlyExtra
produce extra payments of 0, above monthlyExtra) also
extraPayment ≤ monthlyExtra. -/
theorem c6_extra_bounds (b mE : ℚ) (n : ℤ) (r : MonthResult)
    (hr : r ∈ project_months b mE n) :
    0 ≤ r.extra_payment ∧ (0 ≤ mE → r.extra_payment ≤ mE) := by
  have h := (project_go_mem mE n.toNat b 1 r hr).1
  rw [h]
  exact ⟨le_max_left 0 _, fun hmE => max_le hmE (min_le_left _ _)⟩

/-- Witness for C6 at the one-month projection of balance 1000 with monthly
extra 100. -/
theorem c6_witness :
    ({ calculate_month 1000 100 with month := 1 } : MonthResult) ∈
      project_months 1000 100 1 ∧
    0 ≤ ({ calculate_month 1000 100 with month := 1 } : MonthResult).extra_payment ∧
    ({ calculate_month 1000 100 with month := 1 } : MonthResult).extra_payment ≤ 100 :=
  ⟨by norm_num [project_months, project_go, tag_month, clamped_extra, calculate_month,
      round2, round_half_even, MONTHLY_RATE, ANNUAL_RATE, MONTHLY_PAYMENT],
   (c6_extra_bounds 1000 100 1 { calculate_month 1000 100 with month := 1 }
     (by norm_num [project_months, project_go, tag_month, clamped_extra, calculate_month,
       round2, round_half_even, MONTHLY_RATE, ANNUAL_RATE, MONTHLY_PAYMENT])).1,
   (c6_extra_bounds 1000 100 1 { calculate_month 1000 100 with month := 1 }
     (by norm_num [project_months, project_go, tag_month, clamped_extra, calculate_month,
       round2, round_half_even, MONTHLY_RATE, ANNUAL_RATE, MONTHLY_PAYMENT])).2
     (by norm_num)⟩

/-- Claim C7: the single-month path applies no clamping: calculate_month uses
the supplied extra payment exactly, so balance_for_interest is always
balance - extra_payment, even when extra_payment exceeds balance. -/
theorem c7_single_month_unclamped (balance extra_payment : ℚ) :
    (calculate_month balance extra_payment).extra_payment = extra_payment ∧
    (calculate_month balance extra_payment).balance_for_interest =
      balance - extra_payment :=
  ⟨rfl, rfl⟩

/-- Claim C8: a projection over numMonths ≤ 0 is empty. -/
theorem c8_empty_projection (b mE : ℚ) (n : ℤ) (hn : n ≤ 0) :
    project_months b mE n = [] := by
  rw [project_months, Int.toNat_of_nonpos hn]
  rfl

/-- Witness for C8 at numMonths = 0. -/
theorem c8_witness : (0 : ℤ) ≤ 0 ∧ project_months 5000 200 0 = [] :=
  ⟨le_refl 0, c8_empty_projection 5000 200 0 (le_refl 0)⟩

/-- Claim C9: at balance 1000000 with extra payment 0 the month's interest
(5408.33) exceeds the monthly payment, and calculate_month returns a negative
principal and a new balance above the starting balance, with no error. -/
theorem c9_pathological_not_trapped :
    MONTHLY_PAYMENT < (calculate_month 1000000 0).interest ∧
    (calculate_month 1000000 0).principal < 0 ∧
    (calculate_month 1000000 0).starting_balance <
      (calculate_month 1000000 0).new_balance := by
  norm_num [calculate_month, round2, round_half_even, MONTHLY_RATE, ANNUAL_RATE,
    MONTHLY_PAYMENT]

/-- Claim C10: in any projection month whose applied extra payment is
strictly positive, the interest-bearing balance stays at or above 10% of the
regular monthly payment. -/
theorem c10_positive_extra_floor (b mE : ℚ) (n : ℤ) (r : MonthResult)
    (hr : r ∈ project_months b mE n) (hpos : 0 < r.extra_payment) :
    MONTHLY_PAYMENT * 0.1 ≤ r.balance_for_interest := by
  obtain ⟨he, hb⟩ := project_go_mem mE n.toNat b 1 r hr
  rw [hb]
  rcases le_or_lt (min mE (r.starting_balance - MONTHLY_PAYMENT * 0.1)) 0 with h0 | h0
  · rw [he, max_eq_left h0] at hpos
    exact absurd hpos (lt_irrefl 0)
  · have h1 : r.extra_payment ≤ r.starting_balance - MONTHLY_PAYMENT * 0.1 := by
      rw [he, max_eq_right h0.le]
      exact min_le_right _ _
    linarith

/-- Witness for C10 at the one-month projection of balance 1000 with monthly
extra 100: the extra payment 100 is positive and the interest-bearing balance
900 is at least 129.439. -/
theorem c10_witness :
    ({ calculate_month 1000 100 with month := 1 } : MonthResult) ∈
      project_months 1000 100 1 ∧
    0 < ({ calculate_month 1000 100 with month := 1 } : MonthResult).extra_payment ∧
    MONTHLY_PAYMENT * 0.1 ≤
      ({ calculate_month 1000 100 with month := 1 } : MonthResult).balance_for_interest :=
  ⟨by norm_num [project_months, project_go, tag_month, clamped_extra, calculate_month,
      round2, round_half_even, MONTHLY_RATE, ANNUAL_RATE, MONTHLY_PAYMENT],
   by norm_num [tag_month, calculate_month],
   c10_positive_extra_floor 1000 100 1 { calculate_month 1000 100 with month := 1 }
     (by norm_num [project_months, project_go, tag_month, clamped_extra, calculate_month,
       round2, round_half_even, MONTHLY_RATE, ANNUAL_RATE, MONTHLY_PAYMENT])
     (by norm_num [tag_month, calculate_month])⟩
